import Mathlib

/-!
# sacafi-api: the article router (`src/routes/api/articles.js`)

A shallow embedding of the route handlers of the article router: the
approve / disapprove voting routes on password entries, the creation of
password entries, the deletion of comments, the listing of password
entries, the filtered article listing and the feed.

The Mongoose models (`Password`, `Article`, `User`, `Comment`) are not part
of the sources; the few model methods the handlers call are modelled from
the specification and marked as such.
-/

namespace Sacafi

/-! ## Data model -/

/-- A user identifier (an ObjectId, compared through its string form). -/
abbrev UserId := Nat

/-- An article identifier. -/
abbrev ArticleId := Nat

/-- A password entry: article and author references, the opaque value, the
creation timestamp and the two sets of voters. -/
structure Password where
  id : Nat
  article : ArticleId
  author : UserId
  value : String
  createdAt : Nat
  approvals : Finset UserId
  disapprovals : Finset UserId
deriving DecidableEq

/-- Modelled from the spec: `Password.approve`, a method of the Password model,
which is not among the sources. The spec gives approvals as a set of user ids
and the operation as adding the user to it. -/
def Password.approve (p : Password) (u : UserId) : Password :=
  { p with approvals := insert u p.approvals }

/-- Modelled from the spec: `Password.unapprove`, a method of the Password
model, which is not among the sources: remove the user from approvals only. -/
def Password.unapprove (p : Password) (u : UserId) : Password :=
  { p with approvals := p.approvals.erase u }

/-- Modelled from the spec: `Password.disapprove`, a method of the Password
model, which is not among the sources: add the user to disapprovals. -/
def Password.disapprove (p : Password) (u : UserId) : Password :=
  { p with disapprovals := insert u p.disapprovals }

/-- Modelled from the spec: `Password.undisapprove`, a method of the Password
model, which is not among the sources: remove the user from disapprovals
only. -/
def Password.undisapprove (p : Password) (u : UserId) : Password :=
  { p with disapprovals := p.disapprovals.erase u }

/-- Modelled from the spec: the derived rating of a password entry, computed by
the Password model, which is not among the sources:
`|approvals| - |disapprovals|`. -/
def Password.rating (p : Password) : Int :=
  (p.approvals.card : Int) - (p.disapprovals.card : Int)

/-! ## Handlers as promise chains -/

/-- The four voting methods of a password entry. -/
inductive Method
  | approve
  | unapprove
  | disapprove
  | undisapprove
deriving DecidableEq, Repr

/-- The method applied for a resolved user. -/
def Password.call (p : Password) : Method → UserId → Password
  | .approve, u => p.approve u
  | .unapprove, u => p.unapprove u
  | .disapprove, u => p.disapprove u
  | .undisapprove, u => p.undisapprove u

/-- What a handler does that is visible outside it, in order. -/
inductive Effect
  /-- The call `res.sendStatus(code)`. -/
  | sendStatus (code : Nat)
  /-- The call `res.json(...)`. -/
  | json
  /-- The call `req.password.<method>(user)`; `none` is `undefined`. -/
  | invoke (m : Method) (user : Option UserId)
  /-- The call `password.save()` on a new entry. -/
  | passwordSave
  /-- The call `req.article.save()`. -/
  | articleSave
  /-- The query `Comment.find({ _id }).remove().exec()`. -/
  | commentRemove
  /-- The call `next(err)` of the final `.catch(next)`. -/
  | next
deriving DecidableEq, Repr

/-- Has a response already been sent? -/
def responded (trace : List Effect) : Bool :=
  trace.any fun e =>
    match e with
    | .sendStatus _ => true
    | .json => true
    | _ => false

/-- A chain `p.then(f₁).then(f₂)...catch(next)`: each callback runs on the
state its predecessor left when that one fulfilled, whatever value it
returned; the first rejection skips the remaining callbacks and reaches
`onReject`. -/
def runChain {σ : Type} (onReject : σ → σ) : List (σ → Except σ σ) → σ → σ
  | [], c => c
  | f :: rest, c =>
    match f c with
    | .ok c' => runChain onReject rest c'
    | .error c' => onReject c'

/-- The state of a voting handler: the local `user`, the entry `req.password`
and the effects so far. -/
structure VoteCtx where
  user : Option UserId
  password : Password
  trace : List Effect
deriving DecidableEq

/-- Record an effect. -/
def VoteCtx.emit (c : VoteCtx) (e : Effect) : VoteCtx :=
  { c with trace := c.trace ++ [e] }

/-- The final `.catch(next)` of a voting handler. -/
def VoteCtx.caught (c : VoteCtx) : VoteCtx := c.emit .next

/-- The call `req.password.<m>(user)` with the handler's local `user`. While
`user` is still `undefined` the outcome is the model's affair and is taken as
the parameter `undef`: `none` when the call throws or rejects, `some p` when
it fulfils and leaves the entry as `p`. -/
def invoke (undef : Method → Password → Option Password) (m : Method)
    (c : VoteCtx) : Except VoteCtx VoteCtx :=
  let c' := c.emit (.invoke m c.user)
  match c.user with
  | some u => .ok { c' with password := c.password.call m u }
  | none =>
    match undef m c.password with
    | some p => .ok { c' with password := p }
    | none => .error c'

/-- The call `res.json({ article: req.article.toJSONFor(user) })`: it throws
when a response has already been sent. -/
def respondJson (c : VoteCtx) : Except VoteCtx VoteCtx :=
  if responded c.trace then .error (c.emit .json) else .ok (c.emit .json)

/-- The first callback of the voting handlers: `found` is what
`User.findById(req.payload.id)` resolved to. Without a user it returns
`res.sendStatus(401)`, a plain value, so the promise fulfils. -/
def resolveThen (undef : Method → Password → Option Password) (m : Method)
    (found : Option UserId) (c : VoteCtx) : Except VoteCtx VoteCtx :=
  match found with
  | none => .ok (c.emit (.sendStatus 401))
  | some u => invoke undef m { c with user := some u }

/-- The handler `POST /:article/passwords/:password/approve`. -/
def approveRoute (undef : Method → Password → Option Password)
    (found : Option UserId) (p : Password) : VoteCtx :=
  runChain VoteCtx.caught
    [resolveThen undef .approve found, invoke undef .undisapprove, respondJson]
    ⟨none, p, []⟩

/-- The handler `DELETE /:article/passwords/:password/approve`. -/
def unapproveRoute (undef : Method → Password → Option Password)
    (found : Option UserId) (p : Password) : VoteCtx :=
  runChain VoteCtx.caught
    [resolveThen undef .unapprove found, respondJson]
    ⟨none, p, []⟩

/-- The handler `POST /:article/passwords/:password/disapprove`. -/
def disapproveRoute (undef : Method → Password → Option Password)
    (found : Option UserId) (p : Password) : VoteCtx :=
  runChain VoteCtx.caught
    [resolveThen undef .disapprove found, invoke undef .unapprove, respondJson]
    ⟨none, p, []⟩

/-- The handler `DELETE /:article/passwords/:password/disapprove`. -/
def undisapproveRoute (undef : Method → Password → Option Password)
    (found : Option UserId) (p : Password) : VoteCtx :=
  runChain VoteCtx.caught
    [resolveThen undef .undisapprove found, respondJson]
    ⟨none, p, []⟩

/-- The four voting routes. -/
inductive VoteOp
  | approve
  | disapprove
  | unapprove
  | undisapprove
deriving DecidableEq, Repr

/-- The handler of a voting route. -/
def voteRoute (undef : Method → Password → Option Password) :
    VoteOp → Option UserId → Password → VoteCtx
  | .approve => approveRoute undef
  | .disapprove => disapproveRoute undef
  | .unapprove => unapproveRoute undef
  | .undisapprove => undisapproveRoute undef

/-- A finite sequence of voting requests by resolved users against one entry:
the entry each request leaves is the one the next request loads. -/
def runVotes (undef : Method → Password → Option Password)
    (calls : List (VoteOp × UserId)) (p : Password) : Password :=
  calls.foldl (fun q c => (voteRoute undef c.1 (some c.2) q).password) p

/-! ## Creating a password entry -/

/-- The state of the handler `POST /:article/passwords`: the locals `user` and
`password`, the in-memory sequence `req.article.passwords` (references, where
`none` is an `undefined` element) and the effects so far. -/
structure CreateCtx where
  user : Option UserId
  password : Option Password
  articlePasswords : List (Option Nat)
  trace : List Effect
deriving DecidableEq

/-- Record an effect. -/
def CreateCtx.emit (c : CreateCtx) (e : Effect) : CreateCtx :=
  { c with trace := c.trace ++ [e] }

/-- The final `.catch(next)` of the handler. -/
def CreateCtx.caught (c : CreateCtx) : CreateCtx := c.emit .next

/-- First callback: without a user, `return res.sendStatus(401)`; otherwise
build the entry from the request body, set its article and author, save it. -/
def createResolve (found : Option UserId) (article : ArticleId) (body : Password)
    (c : CreateCtx) : Except CreateCtx CreateCtx :=
  match found with
  | none => .ok (c.emit (.sendStatus 401))
  | some u =>
    .ok ({ c with user := some u,
                  password := some { body with article := article, author := u } }.emit
      .passwordSave)

/-- Second callback: `req.article.passwords = req.article.passwords.concat(password)`
and `return req.article.save()`. -/
def createAttach (c : CreateCtx) : Except CreateCtx CreateCtx :=
  .ok ({ c with articlePasswords :=
                  c.articlePasswords ++ [c.password.map Password.id] }.emit .articleSave)

/-- Third callback: `res.json({ password: password.toJSONFor(user) })`; the
method call on an `undefined` password throws, and so does a second
response. -/
def createRespond (c : CreateCtx) : Except CreateCtx CreateCtx :=
  match c.password with
  | none => .error c
  | some _ => if responded c.trace then .error (c.emit .json) else .ok (c.emit .json)

/-- The handler `POST /:article/passwords`. `found` is what
`User.findById(req.payload.id)` resolved to, `body` the document built by
`new Password(req.body.password)`, `refs` the sequence `req.article.passwords`. -/
def createPasswordRoute (found : Option UserId) (article : ArticleId) (body : Password)
    (refs : List (Option Nat)) : CreateCtx :=
  runChain CreateCtx.caught
    [createResolve found article body, createAttach, createRespond]
    ⟨none, none, refs, []⟩

/-! ## Deleting a comment -/

/-- A comment: article and author references, body and creation timestamp. -/
structure Comment where
  id : Nat
  article : ArticleId
  author : UserId
  body : String
  createdAt : Nat
deriving DecidableEq, Repr

/-- The outcome of the delete-comment handler: the in-memory sequence
`req.article.comments` and the effects. -/
structure DeleteCtx where
  comments : List Nat
  trace : List Effect
deriving DecidableEq, Repr

/-- The handler `DELETE /:article/comments/:comment`: `payloadId` is
`req.payload.id`, `refs` the sequence `req.article.comments`. The removal query
is the argument of `.then(...)`, so it is issued right after `save()` is
called. -/
def deleteCommentRoute (comment : Comment) (payloadId : UserId) (refs : List Nat) :
    DeleteCtx :=
  if comment.author = payloadId then
    { comments := refs.filter (fun r => r ≠ comment.id),
      trace := [.articleSave, .commentRemove, .sendStatus 204] }
  else
    { comments := refs, trace := [.sendStatus 403] }

/-! ## Listing the password entries of an article -/

/-- The response value of a password entry. -/
structure PasswordJSON where
  id : Nat
  value : String
  createdAt : Nat
  author : UserId
  rating : Int
deriving DecidableEq, Repr

/-- Modelled from the spec: `Password.toJSONFor`, a method of the Password
model, which is not among the sources: the public fields, the author and the
rating. -/
def Password.toJSONFor (p : Password) (_viewer : Option UserId) : PasswordJSON :=
  { id := p.id, value := p.value, createdAt := p.createdAt, author := p.author,
    rating := p.rating }

/-- The populate option `sort: { createdAt: "desc" }`: the referenced entries
come back in descending order of creation timestamp (equal timestamps in the
order of `refs`). -/
def populatePasswords (refs : List Password) : List Password :=
  refs.insertionSort (fun a b => a.createdAt ≥ b.createdAt)

/-- The call `.sort(function(a, b) { return b.rating - a.rating; })`:
`Array.prototype.sort` is a stable sort, which puts `a` before a later `b`
exactly when the comparison `b.rating - a.rating` is not positive. -/
def sortByRating (l : List PasswordJSON) : List PasswordJSON :=
  l.insertionSort (fun a b => b.rating - a.rating ≤ 0)

/-- The `passwords` field answered by `GET /:article/passwords`; `refs` are the
entries of `req.article.passwords` in the order of that sequence, to which the
create handler appends. -/
def listPasswords (refs : List Password) (viewer : Option UserId) : List PasswordJSON :=
  sortByRating ((populatePasswords refs).map fun p => p.toJSONFor viewer)

/-! ## Articles, users and storage -/

/-- A coordinate in degrees as `Number(...)` yields it. The handler only hands
the four values on to the storage layer. -/
abbrev Coord := Int

/-- A point: longitude, latitude. -/
abbrev Point := Coord × Coord

/-- A user: identity, username and the two relation sets. -/
structure User where
  id : UserId
  username : String
  favorites : List ArticleId
  following : List UserId
deriving DecidableEq, Repr

/-- An article. -/
structure Article where
  id : ArticleId
  slug : String
  author : UserId
  tagList : List String
  location : Option Point
  createdAt : Nat
  favoritesCount : Nat
deriving DecidableEq, Repr

/-- What the handlers read besides the Article collection: the User
collection, and the storage layer's evaluation of
`{ $geoWithin: { $box: [c₁, c₂] } }` on a location. -/
structure Store where
  users : List User
  geoWithin : Point × Point → Option Point → Bool

/-- The query `User.findOne({ username: name })`. -/
def Store.findOne (st : Store) (name : String) : Option User :=
  st.users.find? fun u => u.username = name

/-- The query `User.findById(id)`. -/
def Store.findById (st : Store) (id : UserId) : Option User :=
  st.users.find? fun u => u.id = id

/-- A condition on one field of a storage query: absent, equality, or `$in`. -/
inductive Cond (α : Type)
  | absent
  | equals (a : α)
  | among (l : List α)
deriving DecidableEq, Repr

/-- Does a value satisfy a condition? -/
def Cond.holds {α : Type} [DecidableEq α] : Cond α → α → Bool
  | .absent, _ => true
  | .equals a, x => decide (x = a)
  | .among l, x => decide (x ∈ l)

/-- The filter object handed to `Article.find` and `Article.count`. -/
structure Query where
  location : Option (Point × Point)
  tagList : Option (List String)
  author : Cond UserId
  id : Cond ArticleId
deriving DecidableEq, Repr

/-- Does an article satisfy the filter? All present conditions must hold;
`tagList: { $in: tags }` holds when some tag of the article is among `tags`. -/
def Query.holds (st : Store) (q : Query) (a : Article) : Bool :=
  (match q.location with
    | none => true
    | some box => st.geoWithin box a.location) &&
  (match q.tagList with
    | none => true
    | some tags => a.tagList.any fun t => decide (t ∈ tags)) &&
  q.author.holds a.author &&
  q.id.holds a.id

/-- The parameters of a listing request (`req.query`), with `limit` and
`offset` as the non-negative integers `Number(...)` yields. -/
structure ListParams where
  bbox : Option (Coord × Coord × Coord × Coord)
  limit : Option Nat
  offset : Option Nat
  tag : Option String
  author : Option String
  favorited : Option String
deriving DecidableEq, Repr

/-- Truthiness of an optional query string: present and not empty. -/
def truthy : Option String → Bool
  | some s => decide (s ≠ "")
  | none => false

/-- The lookup `name ? User.findOne({ username: name }) : null`. -/
def Store.lookup (st : Store) (name : Option String) : Option User :=
  if truthy name then name.bind st.findOne else none

/-- The filter object the listing handler builds. -/
def buildQuery (st : Store) (rq : ListParams) : Query :=
  let query : Query := ⟨none, none, .absent, .absent⟩
  let query :=
    match rq.bbox with
    | some (west, south, east, north) =>
      { query with location := some ((west, north), (east, south)) }
    | none => query
  let query :=
    match rq.tag with
    | some tag => { query with tagList := some [tag] }
    | none => query
  let query :=
    match st.lookup rq.author with
    | some author => { query with author := .equals author.id }
    | none => query
  match st.lookup rq.favorited with
  | some favoriter => { query with id := .among favoriter.favorites }
  | none => if truthy rq.favorited then { query with id := .among [] } else query

/-- The cursor options `.limit(limit).skip(offset)` applied to a result
sequence: the storage skips first and limits then, whatever the order of the
two calls, and takes a limit of zero as no limit. -/
def window {α : Type} (limit offset : Nat) (l : List α) : List α :=
  if limit = 0 then l.drop offset else (l.drop offset).take limit

/-- The cursor option `.sort({ createdAt: "desc" })`. Documents with equal
timestamps come in the order in which the storage scanned them. -/
def sortCreatedDesc (l : List Article) : List Article :=
  l.insertionSort fun a b => a.createdAt ≥ b.createdAt

/-- The response value of an article for a viewer. -/
structure ArticleJSON where
  article : Article
  favorited : Bool
  following : Bool
deriving DecidableEq, Repr

/-- Modelled from the spec: `Article.toJSONFor`, a method of the Article model,
which is not among the sources: the public fields, whether the viewer
favorited the article and whether the viewer follows its author, both false
without a viewer. -/
def Article.toJSONFor (a : Article) (viewer : Option User) : ArticleJSON :=
  match viewer with
  | some u =>
    { article := a, favorited := decide (a.id ∈ u.favorites),
      following := decide (a.author ∈ u.following) }
  | none => { article := a, favorited := false, following := false }

/-- The body of a listing response. -/
structure Listing where
  articles : List ArticleJSON
  articlesCount : Nat
deriving DecidableEq, Repr

/-- A response: a JSON body, or a bare status. -/
inductive Response
  | json (body : Listing)
  | status (code : Nat)
deriving DecidableEq, Repr

/-- The articles of a response (none for a bare status). -/
def Response.articles : Response → List ArticleJSON
  | .json body => body.articles
  | .status _ => []

/-- The handler `GET /`. `scan` is the Article collection in the order in
which the storage goes through it for this request, `payload` the id in the
optional token. -/
def listArticles (st : Store) (scan : List Article) (rq : ListParams)
    (payload : Option UserId) : Response :=
  let limit := rq.limit.getD 20
  let offset := rq.offset.getD 0
  let query := buildQuery st rq
  let articles := window limit offset (sortCreatedDesc (scan.filter (query.holds st)))
  let articlesCount := (scan.filter (query.holds st)).length
  let user := payload.bind st.findById
  .json { articles := articles.map fun a => a.toJSONFor user,
          articlesCount := articlesCount }

/-- The handler `GET /feed`. `payloadId` is the id in the required token; the
query has no sort option, so the documents come in scan order. -/
def feedRoute (st : Store) (scan : List Article) (limit offset : Option Nat)
    (payloadId : UserId) : Response :=
  let limit := limit.getD 20
  let offset := offset.getD 0
  match st.findById payloadId with
  | none => .status 401
  | some user =>
    let query : Query := ⟨none, none, .among user.following, .absent⟩
    .json { articles := (window limit offset (scan.filter (query.holds st))).map
                          fun a => a.toJSONFor (some user),
            articlesCount := (scan.filter (query.holds st)).length }

/-! ## Concrete inputs and order instances -/

/-- An entry without votes. -/
def freshEntry : Password := ⟨1, 7, 1, "hunter2", 10, ∅, ∅⟩

/-- A request body for a new entry that lists user 5 among both the approvals
and the disapprovals. -/
def clashingBody : Password := ⟨9, 0, 0, "letmein", 20, {5}, {5}⟩

/-- An outcome for method calls on `undefined`: the call throws. -/
def undefThrows : Method → Password → Option Password := fun _ _ => none

/-- A comment written by user 2. -/
def sampleComment : Comment := ⟨5, 7, 2, "nice", 3⟩

/-- Three entries in creation order, with ratings 3, -1 and 3. -/
def entryA : Password := ⟨1, 7, 1, "alpha", 100, {1, 2, 3}, ∅⟩

/-- The second of the three entries. -/
def entryB : Password := ⟨2, 7, 1, "beta", 200, ∅, {1}⟩

/-- The third of the three entries. -/
def entryC : Password := ⟨3, 7, 2, "gamma", 300, {4, 5, 6}, ∅⟩

/-- Two users: ann follows bob and has favorited article 1. -/
def sampleStore : Store :=
  ⟨[⟨1, "ann", [1], [2]⟩, ⟨2, "bob", [], []⟩], fun _ _ => true⟩

/-- An article by bob, created at time 5. -/
def articleA : Article := ⟨1, "first", 2, ["x"], none, 5, 1⟩

/-- Another article by bob, also created at time 5. -/
def articleB : Article := ⟨2, "second", 2, [], none, 5, 0⟩

/-- A later article by bob, created at time 9. -/
def articleC : Article := ⟨3, "third", 2, [], none, 9, 0⟩

/-- A request without parameters. -/
def noParams : ListParams := ⟨none, none, none, none, none, none⟩

/-- Descending order of timestamps on articles is total. -/
instance articleCreatedTotal : IsTotal Article (fun a b => a.createdAt ≥ b.createdAt) :=
  ⟨fun a b => by omega⟩

/-- Descending order of timestamps on articles is transitive. -/
instance articleCreatedTrans : IsTrans Article (fun a b => a.createdAt ≥ b.createdAt) :=
  ⟨fun a b c h₁ h₂ => by omega⟩

/-- The rating comparison of the listing is total. -/
instance ratingTotal : IsTotal PasswordJSON (fun a b => b.rating - a.rating ≤ 0) :=
  ⟨fun a b => by omega⟩

/-- The rating comparison of the listing is transitive. -/
instance ratingTrans : IsTrans PasswordJSON (fun a b => b.rating - a.rating ≤ 0) :=
  ⟨fun a b c h₁ h₂ => by omega⟩

/-- Descending order of timestamps on entries is total. -/
instance passwordCreatedTotal : IsTotal Password (fun a b => a.createdAt ≥ b.createdAt) :=
  ⟨fun a b => by omega⟩

/-- Descending order of timestamps on entries is transitive. -/
instance passwordCreatedTrans : IsTrans Password (fun a b => a.createdAt ≥ b.createdAt) :=
  ⟨fun a b c h₁ h₂ => by omega⟩

/-! ## The voting routes -/

/-- The entry an Approve request by a resolved user leaves. -/
theorem approveRoute_password (undef : Method → Password → Option Password)
    (u : UserId) (p : Password) :
    (approveRoute undef (some u) p).password = (p.approve u).undisapprove u := rfl

/-- The entry a Disapprove request by a resolved user leaves. -/
theorem disapproveRoute_password (undef : Method → Password → Option Password)
    (u : UserId) (p : Password) :
    (disapproveRoute undef (some u) p).password = (p.disapprove u).unapprove u := rfl

/-- The entry an Unapprove request by a resolved user leaves. -/
theorem unapproveRoute_password (undef : Method → Password → Option Password)
    (u : UserId) (p : Password) :
    (unapproveRoute undef (some u) p).password = p.unapprove u := rfl

/-- The entry an Undisapprove request by a resolved user leaves. -/
theorem undisapproveRoute_password (undef : Method → Password → Option Password)
    (u : UserId) (p : Password) :
    (undisapproveRoute undef (some u) p).password = p.undisapprove u := rfl

/-- One voting request by a resolved user keeps the two sets disjoint. -/
theorem voteRoute_disjoint (undef : Method → Password → Option Password)
    (op : VoteOp) (u : UserId) (p : Password)
    (h : Disjoint p.approvals p.disapprovals) :
    Disjoint (voteRoute undef op (some u) p).password.approvals
      (voteRoute undef op (some u) p).password.disapprovals := by
  rw [Finset.disjoint_left] at h ⊢
  cases op
  · simp only [voteRoute, approveRoute_password, Password.approve, Password.undisapprove]
    intro a ha hd
    rw [Finset.mem_erase] at hd
    rw [Finset.mem_insert] at ha
    rcases ha with ha | ha
    · exact hd.1 ha
    · exact h ha hd.2
  · simp only [voteRoute, disapproveRoute_password, Password.disapprove, Password.unapprove]
    intro a ha hd
    rw [Finset.mem_erase] at ha
    rw [Finset.mem_insert] at hd
    rcases hd with hd | hd
    · exact ha.1 hd
    · exact h ha.2 hd
  · simp only [voteRoute, unapproveRoute_password, Password.unapprove]
    intro a ha hd
    exact h (Finset.mem_of_mem_erase ha) hd
  · simp only [voteRoute, undisapproveRoute_password, Password.undisapprove]
    intro a ha hd
    exact h ha (Finset.mem_of_mem_erase hd)

/-- Any sequence of voting requests by resolved users keeps the two sets
disjoint. -/
theorem runVotes_disjoint (undef : Method → Password → Option Password)
    (calls : List (VoteOp × UserId)) :
    ∀ p : Password, Disjoint p.approvals p.disapprovals →
      Disjoint (runVotes undef calls p).approvals (runVotes undef calls p).disapprovals := by
  induction calls with
  | nil => intro p h; exact h
  | cons c rest ih =>
    intro p h
    exact ih _ (voteRoute_disjoint undef c.1 c.2 p h)

/-- C1 (as stated, refuted). A newly created entry need not start with disjoint
sets: the create handler keeps the approvals and disapprovals of the request
body, so a body naming user 5 in both gives, with a normal response, an entry
that has user 5 in both sets, and he stays in both after voting requests of
other users. -/
theorem created_entry_not_exclusive :
    (createPasswordRoute (some 1) 7 clashingBody []).trace
        = [.passwordSave, .articleSave, .json] ∧
    (createPasswordRoute (some 1) 7 clashingBody []).password
        = some { clashingBody with article := 7, author := 1 } ∧
    (5 ∈ ({ clashingBody with article := 7, author := 1 } : Password).approvals ∧
      5 ∈ ({ clashingBody with article := 7, author := 1 } : Password).disapprovals) ∧
    (5 ∈ (runVotes undefThrows [(.approve, 4), (.disapprove, 3), (.unapprove, 4)]
            { clashingBody with article := 7, author := 1 }).approvals ∧
      5 ∈ (runVotes undefThrows [(.approve, 4), (.disapprove, 3), (.unapprove, 4)]
            { clashingBody with article := 7, author := 1 }).disapprovals) := by
  refine ⟨rfl, rfl, ?_, ?_⟩
  · decide
  · decide

/-- C1 (amended). Mutual exclusion: when the approvals and disapprovals of an
entry start disjoint, then after any finite sequence of Approve, Disapprove,
Unapprove and Undisapprove requests by resolved users no user is in both
sets. An entry newly created by a resolved user starts with the two sets of
the request body, so this holds for it whenever the body's sets are disjoint,
for instance when the body names no votes. -/
theorem mutual_exclusion (undef : Method → Password → Option Password)
    (p : Password) (calls : List (VoteOp × UserId))
    (h : Disjoint p.approvals p.disapprovals) (u : UserId) :
    ¬ (u ∈ (runVotes undef calls p).approvals ∧
       u ∈ (runVotes undef calls p).disapprovals) ∧
    (∀ (author : UserId) (article : ArticleId) (refs : List (Option Nat)),
      ∃ q : Password,
        (createPasswordRoute (some author) article p refs).password = some q ∧
        q.approvals = p.approvals ∧ q.disapprovals = p.disapprovals ∧
        ¬ (u ∈ (runVotes undef calls q).approvals ∧
           u ∈ (runVotes undef calls q).disapprovals)) := by
  constructor
  · intro hu
    exact Finset.disjoint_left.mp (runVotes_disjoint undef calls p h) hu.1 hu.2
  · intro author article refs
    refine ⟨{ p with article := article, author := author }, rfl, rfl, rfl, ?_⟩
    intro hu
    exact Finset.disjoint_left.mp
      (runVotes_disjoint undef calls { p with article := article, author := author } h)
      hu.1 hu.2

/-- Mutual exclusion on an entry without votes, and on the entry created from
a body without votes, after four requests. -/
theorem mutual_exclusion_witness :
    Disjoint freshEntry.approvals freshEntry.disapprovals ∧
    ¬ (4 ∈ (runVotes undefThrows
          [(.approve, 4), (.disapprove, 4), (.approve, 3), (.undisapprove, 4)]
          freshEntry).approvals ∧
       4 ∈ (runVotes undefThrows
          [(.approve, 4), (.disapprove, 4), (.approve, 3), (.undisapprove, 4)]
          freshEntry).disapprovals) ∧
    (∃ q : Password,
      (createPasswordRoute (some 2) 7 freshEntry [some 3]).password = some q ∧
      q.approvals = freshEntry.approvals ∧ q.disapprovals = freshEntry.disapprovals ∧
      ¬ (4 ∈ (runVotes undefThrows
            [(.approve, 4), (.disapprove, 4), (.approve, 3), (.undisapprove, 4)]
            q).approvals ∧
         4 ∈ (runVotes undefThrows
            [(.approve, 4), (.disapprove, 4), (.approve, 3), (.undisapprove, 4)]
            q).disapprovals)) :=
  ⟨by decide,
    (mutual_exclusion undefThrows freshEntry _ (by decide) 4).1,
    (mutual_exclusion undefThrows freshEntry _ (by decide) 4).2 2 7 [some 3]⟩

/-- C2. Approve by a resolved user Y followed by Disapprove by Y leaves Y in the
disapprovals and out of the approvals, leaves every other user's membership
in either set as it was, and the rating is the number of approvals minus the
number of disapprovals; on an entry without votes the approvals end empty,
the disapprovals are exactly Y and the rating is -1. -/
theorem approve_then_disapprove (undef : Method → Password → Option Password)
    (p : Password) (y : UserId) :
    let q := (disapproveRoute undef (some y) (approveRoute undef (some y) p).password).password
    y ∈ q.disapprovals ∧ y ∉ q.approvals ∧
    (∀ v : UserId, v ≠ y →
      ((v ∈ q.approvals ↔ v ∈ p.approvals) ∧ (v ∈ q.disapprovals ↔ v ∈ p.disapprovals))) ∧
    q.rating = (q.approvals.card : Int) - (q.disapprovals.card : Int) ∧
    (p.approvals = ∅ → p.disapprovals = ∅ →
      q.approvals = ∅ ∧ q.disapprovals = {y} ∧ q.rating = -1) := by
  intro q
  have hq : q = ((((p.approve y).undisapprove y).disapprove y).unapprove y) := rfl
  have ha : q.approvals = (insert y p.approvals).erase y := by rw [hq]; rfl
  have hd : q.disapprovals = insert y (p.disapprovals.erase y) := by rw [hq]; rfl
  refine ⟨?_, ?_, ?_, rfl, ?_⟩
  · rw [hd]; exact Finset.mem_insert_self _ _
  · rw [ha]; exact Finset.not_mem_erase _ _
  · intro v hv
    rw [ha, hd]
    constructor
    · simp [Finset.mem_erase, Finset.mem_insert, hv]
    · simp [Finset.mem_erase, Finset.mem_insert, hv]
  · intro h1 h2
    have ha' : q.approvals = ∅ := by rw [ha, h1]; simp
    have hd' : q.disapprovals = {y} := by rw [hd, h2]; simp
    refine ⟨ha', hd', ?_⟩
    simp [Password.rating, ha', hd']

/-- Approve then Disapprove by user 4 on an entry without votes. -/
theorem approve_then_disapprove_witness :
    (3 ≠ 4 ∧ freshEntry.approvals = ∅ ∧ freshEntry.disapprovals = ∅) ∧
    ((3 ∈ (disapproveRoute undefThrows (some 4)
            (approveRoute undefThrows (some 4) freshEntry).password).password.approvals ↔
        3 ∈ freshEntry.approvals) ∧
      (3 ∈ (disapproveRoute undefThrows (some 4)
            (approveRoute undefThrows (some 4) freshEntry).password).password.disapprovals ↔
        3 ∈ freshEntry.disapprovals)) ∧
    ((disapproveRoute undefThrows (some 4)
        (approveRoute undefThrows (some 4) freshEntry).password).password.approvals = ∅ ∧
      (disapproveRoute undefThrows (some 4)
        (approveRoute undefThrows (some 4) freshEntry).password).password.disapprovals = {4} ∧
      (disapproveRoute undefThrows (some 4)
        (approveRoute undefThrows (some 4) freshEntry).password).password.rating = -1) :=
  ⟨⟨by decide, rfl, rfl⟩,
    (approve_then_disapprove undefThrows freshEntry 4).2.2.1 3 (by decide),
    (approve_then_disapprove undefThrows freshEntry 4).2.2.2.2 rfl rfl⟩

/-- C4. Idempotence of Approve: a second Approve request by the same resolved
user on the same entry leaves the entry, and so its approvals and
disapprovals, exactly as the first one left them. -/
theorem approve_idempotent (undef : Method → Password → Option Password)
    (p : Password) (u : UserId) :
    (approveRoute undef (some u) (approveRoute undef (some u) p).password).password.approvals
        = (approveRoute undef (some u) p).password.approvals ∧
    (approveRoute undef (some u) (approveRoute undef (some u) p).password).password.disapprovals
        = (approveRoute undef (some u) p).password.disapprovals := by
  simp only [approveRoute_password, Password.approve, Password.undisapprove]
  constructor
  · simp
  · simp

/-- C6 (divergence). With a token whose user no longer exists the handlers send
401 and then go on: the create handler appends an `undefined` reference to
the article's password sequence and calls `req.article.save()`; the approve
handler calls `undisapprove` on the entry and attempts a second response. -/
theorem unresolved_user_continues (undef : Method → Password → Option Password)
    (article : ArticleId) (body p : Password) (refs : List (Option Nat)) :
    (createPasswordRoute none article body refs).trace
        = [.sendStatus 401, .articleSave, .next] ∧
    (createPasswordRoute none article body refs).articlePasswords = refs ++ [none] ∧
    Effect.invoke .undisapprove none ∈ (approveRoute undef none p).trace ∧
    Effect.invoke .unapprove none ∈ (disapproveRoute undef none p).trace ∧
    (unapproveRoute undef none p).trace = [.sendStatus 401, .json, .next] ∧
    (undisapproveRoute undef none p).trace = [.sendStatus 401, .json, .next] := by
  refine ⟨rfl, rfl, ?_, ?_, rfl, rfl⟩
  · cases h : undef .undisapprove p <;>
      simp [approveRoute, runChain, resolveThen, invoke, respondJson, responded,
        VoteCtx.emit, VoteCtx.caught, h]
  · cases h : undef .unapprove p <;>
      simp [disapproveRoute, runChain, resolveThen, invoke, respondJson, responded,
        VoteCtx.emit, VoteCtx.caught, h]

/-- C7. The delete-comment request of anyone who is not the comment's author is
answered 403 and nothing else happens: the article's comment sequence is
unchanged, the article is not saved and the comment record is not removed. -/
theorem delete_comment_forbidden (c : Comment) (actor : UserId) (refs : List Nat)
    (h : actor ≠ c.author) :
    (deleteCommentRoute c actor refs).trace = [.sendStatus 403] ∧
    (deleteCommentRoute c actor refs).comments = refs ∧
    Effect.articleSave ∉ (deleteCommentRoute c actor refs).trace ∧
    Effect.commentRemove ∉ (deleteCommentRoute c actor refs).trace := by
  have hne : ¬ c.author = actor := fun e => h e.symm
  simp [deleteCommentRoute, hne]

/-- User 1 may not delete the comment of user 2. -/
theorem delete_comment_forbidden_witness :
    (1 : UserId) ≠ sampleComment.author ∧
    (deleteCommentRoute sampleComment 1 [4, 5, 6]).trace = [.sendStatus 403] ∧
    (deleteCommentRoute sampleComment 1 [4, 5, 6]).comments = [4, 5, 6] ∧
    Effect.articleSave ∉ (deleteCommentRoute sampleComment 1 [4, 5, 6]).trace ∧
    Effect.commentRemove ∉ (deleteCommentRoute sampleComment 1 [4, 5, 6]).trace :=
  ⟨by decide, delete_comment_forbidden sampleComment 1 [4, 5, 6] (by decide)⟩

/-! ## Listing password entries -/

/-- Inserting into a list keeps the elements selected by `P` in place, as
long as the new element goes before every selected one it is selected with. -/
theorem filter_orderedInsert {α : Type} (r : α → α → Prop) [DecidableRel r]
    (P : α → Bool) (hP : ∀ a b, P a = true → P b = true → r a b) (a : α) :
    ∀ l : List α, (l.orderedInsert r a).filter P = (a :: l).filter P := by
  intro l
  induction l with
  | nil => rfl
  | cons b l ih =>
    by_cases hab : r a b
    · rw [List.orderedInsert, if_pos hab]
    · rw [List.orderedInsert, if_neg hab, List.filter_cons, ih]
      cases hb : P b
      · simp [List.filter_cons, hb]
      · have ha : P a = false := by
          cases ha : P a
          · rfl
          · exact absurd (hP a b ha hb) hab
        simp [List.filter_cons, hb, ha]

/-- Insertion sort keeps the relative order of the elements selected by `P`
when any two selected elements are related. -/
theorem filter_insertionSort {α : Type} (r : α → α → Prop) [DecidableRel r]
    (P : α → Bool) (hP : ∀ a b, P a = true → P b = true → r a b) :
    ∀ l : List α, (l.insertionSort r).filter P = l.filter P := by
  intro l
  induction l with
  | nil => rfl
  | cons a l ih =>
    rw [List.insertionSort, filter_orderedInsert r P hP, List.filter_cons, List.filter_cons, ih]

/-- C3 (as stated, refuted). Entries with ratings 3, -1, 3 in creation order are
listed as third, first, second: the two entries of rating 3 do not keep
their creation order. -/
theorem listPasswords_creation_order_fails :
    (listPasswords [entryA, entryB, entryC] none).map PasswordJSON.rating = [3, 3, -1] ∧
    (listPasswords [entryA, entryB, entryC] none).map PasswordJSON.id = [3, 1, 2] ∧
    ¬ ((listPasswords [entryA, entryB, entryC] none).filter (fun j => decide (j.rating = 3))
        = ([entryA, entryB, entryC].map fun p => p.toJSONFor none).filter
            (fun j => decide (j.rating = 3))) := by
  decide

/-- C3 (amended). The listing of an article's password entries is sorted by
descending rating, is a permutation of the article's entries, and entries of
equal rating keep the order in which they were retrieved, which is by
descending creation timestamp (newest first). -/
theorem listPasswords_sorted (refs : List Password) (viewer : Option UserId) :
    (listPasswords refs viewer).Sorted (fun a b => a.rating ≥ b.rating) ∧
    (listPasswords refs viewer).Perm (refs.map fun p => p.toJSONFor viewer) ∧
    (∀ r : Int,
      (listPasswords refs viewer).filter (fun j => decide (j.rating = r))
        = ((populatePasswords refs).map fun p => p.toJSONFor viewer).filter
            (fun j => decide (j.rating = r))) ∧
    (∀ r : Int,
      ((listPasswords refs viewer).filter (fun j => decide (j.rating = r))).Sorted
        (fun a b => a.createdAt ≥ b.createdAt)) := by
  have hstable : ∀ r : Int,
      (listPasswords refs viewer).filter (fun j => decide (j.rating = r))
        = ((populatePasswords refs).map fun p => p.toJSONFor viewer).filter
            (fun j => decide (j.rating = r)) := by
    intro r
    apply filter_insertionSort
    intro a b ha hb
    have ha' : a.rating = r := of_decide_eq_true ha
    have hb' : b.rating = r := of_decide_eq_true hb
    omega
  refine ⟨?_, ?_, hstable, ?_⟩
  · have h := List.sorted_insertionSort (fun a b : PasswordJSON => b.rating - a.rating ≤ 0)
      ((populatePasswords refs).map fun p => p.toJSONFor viewer)
    have h' : List.Pairwise (fun a b : PasswordJSON => b.rating - a.rating ≤ 0)
        (listPasswords refs viewer) := h
    refine List.Pairwise.imp ?_ h'
    intro a b hab
    show a.rating ≥ b.rating
    omega
  · exact (List.perm_insertionSort _ _).trans ((List.perm_insertionSort _ _).map _)
  · intro r
    rw [hstable r]
    apply List.Pairwise.filter
    apply List.pairwise_map.mpr
    exact List.sorted_insertionSort (fun a b : Password => a.createdAt ≥ b.createdAt) refs

/-! ## Listing articles -/

/-- Two consecutive windows of a positive limit make up the window of twice
that limit. -/
theorem window_append {α : Type} (l : List α) (L O : Nat) (hL : 1 ≤ L) :
    window L O l ++ window L (O + L) l = window (2 * L) O l := by
  have h1 : L ≠ 0 := by omega
  have h2 : 2 * L ≠ 0 := by omega
  simp only [window, if_neg h1, if_neg h2]
  rw [two_mul, List.take_add, ← List.drop_drop]

/-- A window is a sublist. -/
theorem window_sublist {α : Type} (l : List α) (L O : Nat) : (window L O l).Sublist l := by
  unfold window
  split
  · exact List.drop_sublist _ _
  · exact (List.take_sublist _ _).trans (List.drop_sublist _ _)

/-- The filter object does not depend on `limit` and `offset`. -/
theorem buildQuery_paging (st : Store) (rq : ListParams) (l o : Option Nat) :
    buildQuery st { rq with limit := l, offset := o } = buildQuery st rq := rfl

/-- With pairwise distinct timestamps the sorted result does not depend on the
order in which the storage scans the collection. -/
theorem sortCreatedDesc_perm (l₁ l₂ : List Article) (hp : l₂.Perm l₁)
    (hts : (l₁.map Article.createdAt).Nodup) :
    sortCreatedDesc l₂ = sortCreatedDesc l₁ := by
  have strict : ∀ l : List Article, l.Perm l₁ →
      (sortCreatedDesc l).Sorted (fun a b => a.createdAt > b.createdAt) := by
    intro l hl
    have hs : (sortCreatedDesc l).Pairwise (fun a b => a.createdAt ≥ b.createdAt) :=
      List.sorted_insertionSort (fun a b : Article => a.createdAt ≥ b.createdAt) l
    have hperm : (sortCreatedDesc l).Perm l₁ := (List.perm_insertionSort _ l).trans hl
    have hnd : ((sortCreatedDesc l).map Article.createdAt).Nodup :=
      (hperm.map Article.createdAt).nodup_iff.mpr hts
    have hne : (sortCreatedDesc l).Pairwise (fun a b => a.createdAt ≠ b.createdAt) :=
      List.pairwise_map.mp hnd
    refine List.Pairwise.imp ?_ (hs.and hne)
    intro a b hab
    have h1 : a.createdAt ≥ b.createdAt := hab.1
    have h2 : a.createdAt ≠ b.createdAt := hab.2
    show a.createdAt > b.createdAt
    omega
  haveI : IsAntisymm Article (fun a b => a.createdAt > b.createdAt) :=
    ⟨fun a b h₁ h₂ => absurd h₁ (by
      have h₂' : b.createdAt > a.createdAt := h₂
      show ¬ a.createdAt > b.createdAt
      omega)⟩
  apply List.eq_of_perm_of_sorted ?_ (strict l₂ hp) (strict l₁ (List.Perm.refl _))
  exact (List.perm_insertionSort _ l₂).trans (hp.trans (List.perm_insertionSort _ l₁).symm)

/-- An unresolved, non-empty `favorited` name makes the filter reject every
article. -/
theorem buildQuery_ghost (st : Store) (rq : ListParams) (name : String)
    (h₁ : rq.favorited = some name) (h₂ : name ≠ "") (h₃ : st.findOne name = none)
    (a : Article) : (buildQuery st rq).holds st a = false := by
  have ht : truthy rq.favorited = true := by simp [h₁, truthy, h₂]
  have hl : st.lookup rq.favorited = none := by simp [Store.lookup, h₁, h₃]
  have hid : (buildQuery st rq).id = .among [] := by
    simp only [buildQuery, hl, ht, if_true]
  simp [Query.holds, hid, Cond.holds]

/-- The listing for an unresolved, non-empty `favorited` name is empty. -/
theorem listArticles_ghost (st : Store) (scan : List Article) (rq : ListParams)
    (payload : Option UserId) (name : String)
    (h₁ : rq.favorited = some name) (h₂ : name ≠ "") (h₃ : st.findOne name = none) :
    listArticles st scan rq payload = .json ⟨[], 0⟩ := by
  have hf : scan.filter ((buildQuery st rq).holds st) = [] := by
    rw [List.filter_eq_nil_iff]
    intro a _
    simp [buildQuery_ghost st rq name h₁ h₂ h₃ a]
  simp [listArticles, hf, sortCreatedDesc, window]

/-- The articles of a listing response, as articles. -/
theorem listArticles_articles (st : Store) (scan : List Article) (rq : ListParams)
    (payload : Option UserId) :
    (listArticles st scan rq payload).articles.map ArticleJSON.article
      = window (rq.limit.getD 20) (rq.offset.getD 0)
          (sortCreatedDesc (scan.filter ((buildQuery st rq).holds st))) := by
  simp only [listArticles, Response.articles, List.map_map]
  conv_rhs => rw [← List.map_id (window _ _ _)]
  apply List.map_congr_left
  intro a _
  cases payload.bind st.findById <;> rfl

/-- C5 (as stated, refuted). With `limit=0` both pages are the whole result, so
their concatenation repeats every item; and with two articles of the same
timestamp, scanned in a different order by the two requests, the pages for
`limit=1` at offsets 0 and 1 both hold the same article. -/
theorem pagination_fails :
    ((listArticles sampleStore [articleA]
          { noParams with limit := some 0, offset := some 0 } none).articles ++
        (listArticles sampleStore [articleA]
          { noParams with limit := some 0, offset := some (0 + 0) } none).articles
      ≠ (listArticles sampleStore [articleA]
          { noParams with limit := some (2 * 0), offset := some 0 } none).articles) ∧
    ([articleB, articleA].Perm [articleA, articleB] ∧
      articleA.createdAt = articleB.createdAt ∧
      ((listArticles sampleStore [articleA, articleB]
            { noParams with limit := some 1, offset := some 0 } none).articles ++
          (listArticles sampleStore [articleB, articleA]
            { noParams with limit := some 1, offset := some (0 + 1) } none).articles
        ≠ (listArticles sampleStore [articleA, articleB]
            { noParams with limit := some (2 * 1), offset := some 0 } none).articles) ∧
      ¬ ((listArticles sampleStore [articleA, articleB]
            { noParams with limit := some 1, offset := some 0 } none).articles ++
          (listArticles sampleStore [articleB, articleA]
            { noParams with limit := some 1, offset := some (0 + 1) } none).articles).Nodup) := by
  refine ⟨by decide, List.Perm.swap _ _ _, rfl, by decide, by decide⟩

/-- C5 (amended). For a static set of articles in which no two articles matching
the filters share a creation timestamp, every filter combination, every limit
L ≥ 1 and every offset O, the page (L, O) followed by the page (L, O + L) is
the page (2L, O) and holds no article twice, in whatever order the storage
scans the set for each of the three requests. -/
theorem pagination_stable (st : Store) (scan₁ scan₂ scan₃ : List Article)
    (rq : ListParams) (payload : Option UserId) (L O : Nat)
    (h₂ : scan₂.Perm scan₁) (h₃ : scan₃.Perm scan₁) (hL : 1 ≤ L)
    (hts : ((scan₁.filter ((buildQuery st rq).holds st)).map Article.createdAt).Nodup) :
    (listArticles st scan₁ { rq with limit := some L, offset := some O } payload).articles ++
        (listArticles st scan₂ { rq with limit := some L, offset := some (O + L) }
          payload).articles
      = (listArticles st scan₃ { rq with limit := some (2 * L), offset := some O }
          payload).articles ∧
    ((listArticles st scan₁ { rq with limit := some L, offset := some O } payload).articles ++
        (listArticles st scan₂ { rq with limit := some L, offset := some (O + L) }
          payload).articles).Nodup := by
  have e₂ : sortCreatedDesc (scan₂.filter ((buildQuery st rq).holds st))
      = sortCreatedDesc (scan₁.filter ((buildQuery st rq).holds st)) :=
    sortCreatedDesc_perm _ _ (h₂.filter _) hts
  have e₃ : sortCreatedDesc (scan₃.filter ((buildQuery st rq).holds st))
      = sortCreatedDesc (scan₁.filter ((buildQuery st rq).holds st)) :=
    sortCreatedDesc_perm _ _ (h₃.filter _) hts
  have heq : (listArticles st scan₁ { rq with limit := some L, offset := some O }
        payload).articles ++
        (listArticles st scan₂ { rq with limit := some L, offset := some (O + L) }
          payload).articles
      = (listArticles st scan₃ { rq with limit := some (2 * L), offset := some O }
          payload).articles := by
    simp only [listArticles, Response.articles, buildQuery_paging, Option.getD_some, e₂, e₃]
    rw [← List.map_append, window_append _ L O hL]
  refine ⟨heq, ?_⟩
  rw [heq]
  apply List.Nodup.of_map ArticleJSON.article
  rw [listArticles_articles]
  apply (window_sublist _ _ _).nodup
  have hnd : (scan₃.filter ((buildQuery st rq).holds st)).Nodup :=
    ((h₃.filter _).nodup_iff).mpr (List.Nodup.of_map _ hts)
  exact (List.perm_insertionSort _ _).nodup_iff.mpr hnd

/-- Two pages of one article each, over two articles of distinct timestamps
scanned in opposite orders. -/
theorem pagination_stable_witness :
    ([articleA, articleC].Perm [articleC, articleA] ∧
      [articleC, articleA].Perm [articleC, articleA] ∧ 1 ≤ 1 ∧
      (([articleC, articleA].filter ((buildQuery sampleStore noParams).holds sampleStore)).map
        Article.createdAt).Nodup) ∧
    ((listArticles sampleStore [articleC, articleA]
          { noParams with limit := some 1, offset := some 0 } none).articles ++
        (listArticles sampleStore [articleA, articleC]
          { noParams with limit := some 1, offset := some (0 + 1) } none).articles
      = (listArticles sampleStore [articleC, articleA]
          { noParams with limit := some (2 * 1), offset := some 0 } none).articles ∧
    ((listArticles sampleStore [articleC, articleA]
          { noParams with limit := some 1, offset := some 0 } none).articles ++
        (listArticles sampleStore [articleA, articleC]
          { noParams with limit := some 1, offset := some (0 + 1) } none).articles).Nodup) :=
  ⟨⟨List.Perm.swap _ _ _, List.Perm.refl _, by decide, by decide⟩,
    pagination_stable sampleStore [articleC, articleA] [articleA, articleC] [articleC, articleA]
      noParams none 1 0 (List.Perm.swap _ _ _) (List.Perm.refl _) (by decide) (by decide)⟩

/-- C8. A listing request whose `favorited` parameter is a non-empty username
of no existing user is answered with a JSON body with no articles and
`articlesCount` 0, whatever the other parameters; and for every request
`articlesCount` is the number of articles matching the filters, whatever the
limit and offset, and bounds the number of articles returned. -/
theorem favorited_unknown_empty (st : Store) (scan : List Article) (rq : ListParams)
    (payload : Option UserId) :
    (∀ name : String, rq.favorited = some name → name ≠ "" → st.findOne name = none →
      listArticles st scan rq payload = .json ⟨[], 0⟩) ∧
    (∀ limit offset : Option Nat, ∃ body : Listing,
      listArticles st scan { rq with limit := limit, offset := offset } payload = .json body ∧
      body.articlesCount = (scan.filter ((buildQuery st rq).holds st)).length ∧
      body.articles.length ≤ body.articlesCount) := by
  refine ⟨fun name h₁ h₂ h₃ => listArticles_ghost st scan rq payload name h₁ h₂ h₃, ?_⟩
  intro limit offset
  refine ⟨_, rfl, rfl, ?_⟩
  simp only [List.length_map, buildQuery_paging]
  have h := (window_sublist (sortCreatedDesc (scan.filter ((buildQuery st rq).holds st)))
    (limit.getD 20) (offset.getD 0)).length_le
  have h' : (sortCreatedDesc (scan.filter ((buildQuery st rq).holds st))).length
      = (scan.filter ((buildQuery st rq).holds st)).length := List.length_insertionSort _ _
  omega

/-- No user is called ghost, so the listing favorited by ghost is empty. -/
theorem favorited_unknown_empty_witness :
    (({ noParams with favorited := some "ghost", tag := some "x", limit := some 5 } :
        ListParams).favorited = some "ghost" ∧
      "ghost" ≠ "" ∧ sampleStore.findOne "ghost" = none) ∧
    listArticles sampleStore [articleA, articleB]
      { noParams with favorited := some "ghost", tag := some "x", limit := some 5 } (some 1)
      = .json ⟨[], 0⟩ :=
  ⟨⟨rfl, by decide, by decide⟩,
    (favorited_unknown_empty sampleStore [articleA, articleB]
      { noParams with favorited := some "ghost", tag := some "x", limit := some 5 }
      (some 1)).1 "ghost" rfl (by decide) (by decide)⟩

/-- C9 (divergence). The feed query has no sort option: with two articles of a
followed author stored in creation order, the feed answers them oldest
first, the earlier timestamp being smaller than the later one. -/
theorem feed_unsorted :
    feedRoute sampleStore [articleA, articleC] none none 1
      = .json ⟨[articleA.toJSONFor (sampleStore.findById 1),
                articleC.toJSONFor (sampleStore.findById 1)], 2⟩ ∧
    articleA.author ∈ [2] ∧ articleC.author ∈ [2] ∧
    (sampleStore.findById 1).map User.following = some [2] ∧
    articleA.createdAt < articleC.createdAt := by
  decide

/-- C10. When the `author` parameter names no existing user, the listing
handler adds no author condition: the response is the one of the same
request without the `author` parameter; whereas the same unresolved name,
when not empty, given as `favorited` empties the result. -/
theorem author_unknown_ignored (st : Store) (scan : List Article) (rq : ListParams)
    (payload : Option UserId) (name : String)
    (h₁ : rq.author = some name) (h₂ : st.findOne name = none) :
    listArticles st scan rq payload
      = listArticles st scan { rq with author := none } payload ∧
    (name ≠ "" →
      listArticles st scan { rq with favorited := some name } payload = .json ⟨[], 0⟩) := by
  constructor
  · have hl : st.lookup rq.author = none := by simp [Store.lookup, h₁, h₂]
    have hl' : st.lookup none = none := by simp [Store.lookup, truthy]
    have hq : buildQuery st rq = buildQuery st { rq with author := none } := by
      simp only [buildQuery, hl, hl']
    simp only [listArticles, hq]
  · intro hne
    exact listArticles_ghost st scan _ payload name rfl hne h₂

/-- No user is called ghost, so the author filter ghost filters nothing. -/
theorem author_unknown_ignored_witness :
    (({ noParams with author := some "ghost" } : ListParams).author = some "ghost" ∧
      sampleStore.findOne "ghost" = none ∧ "ghost" ≠ "") ∧
    (listArticles sampleStore [articleA, articleC] { noParams with author := some "ghost" } none
      = listArticles sampleStore [articleA, articleC]
          { ({ noParams with author := some "ghost" } : ListParams) with author := none }
          none) ∧
    listArticles sampleStore [articleA, articleC]
      { ({ noParams with author := some "ghost" } : ListParams) with favorited := some "ghost" }
      none = .json ⟨[], 0⟩ :=
  ⟨⟨rfl, by decide, by decide⟩,
    (author_unknown_ignored sampleStore [articleA, articleC]
      { noParams with author := some "ghost" } none "ghost" rfl (by decide)).1,
    (author_unknown_ignored sampleStore [articleA, articleC]
      { noParams with author := some "ghost" } none "ghost" rfl (by decide)).2 (by decide)⟩

end Sacafi
